import Mathlib

/-!
Shallow embedding of `src/orders/order.service.js` (Blanco API backend,
order lifecycle service).

The Sequelize stores (`db.Account`, `db.Product`, `db.Inventory`,
`db.Order`) are modelled as lists inside a `DB` record; `findByPk` /
`findOne` become `List.find?`, `save` on an existing row replaces the
first matching row, `save` on a fresh `Order` appends.  JS `throw '...'`
becomes `Except.error` with the exact message string.  Each mutating
operation returns, besides its result, the post-state `DB` and the trace
of persistence effects in the order the source performs them, so that
claims about side-effect ordering can be stated.  All throws in the
source happen before any mutation, so on error the operation returns the
original `DB` and an empty trace.
-/

namespace Blanco

/-- Order status values used by the service
(`pending`, `processing`, `shipped`, `delivered`, `cancelled`). -/
inductive OrderStatus where
  | pending
  | processing
  | shipped
  | delivered
  | cancelled
deriving DecidableEq, Repr

/-- The string stored in the `orderStatus` column for each status value. -/
def statusString : OrderStatus → String
  | .pending => "pending"
  | .processing => "processing"
  | .shipped => "shipped"
  | .delivered => "delivered"
  | .cancelled => "cancelled"

/-- Account row (managed externally; the service only reads it). -/
structure Account where
  id : Nat
  email : String
deriving DecidableEq, Repr

/-- Product row.  `productStatus` is the `active`/inactive flag checked at
order creation; `isAvailable` is the flag cancelOrder flips to false. -/
structure Product where
  id : Nat
  name : String
  price : Nat
  productStatus : String
  isAvailable : Bool
deriving DecidableEq, Repr

/-- Inventory row: available quantity for one product. -/
structure Inventory where
  productId : Nat
  quantity : Nat
deriving DecidableEq, Repr

/-- Order row. -/
structure Order where
  id : Nat
  AccountId : Nat
  productId : Nat
  quantity : Nat
  totalAmount : Nat
  orderStatus : OrderStatus
  shippingAddress : String
  createdAt : Nat
deriving DecidableEq, Repr

/-- OrderActivity row written by `logOrderActivity`. -/
structure Activity where
  accountId : Nat
  orderId : Nat
  action : String
  description : String
  ipAddress : String
  browserInfo : String
deriving DecidableEq, Repr

/-- The backing stores seen by the service.  `nextOrderId` models the
auto-increment primary key of the Order table and `now` the `createdAt`
timestamp a newly inserted row receives. -/
structure DB where
  accounts : List Account
  products : List Product
  inventories : List Inventory
  orders : List Order
  activities : List Activity
  nextOrderId : Nat
  now : Nat
deriving Repr

/-- One persistence effect, recorded in the order the source awaits it. -/
inductive Effect where
  | saveOrder (o : Order)
  | logActivity (a : Activity)
  | saveInventory (i : Inventory)
  | saveProduct (p : Product)
deriving DecidableEq, Repr

/-- Replace the first element satisfying `p` by `v` (a Sequelize
`row.save()` updating the row previously fetched by the query `p`). -/
def updateFirst (p : α → Bool) (v : α) : List α → List α
  | [] => []
  | a :: l => if p a then v :: l else a :: updateFirst p v l

/-- `order.save()` on an existing order row: update by primary key. -/
def saveOrderRow (db : DB) (o : Order) : DB :=
  { db with orders := updateFirst (fun x => x.id == o.id) o db.orders }

/-- `inventory.save()`: update the row fetched by `findOne({productId})`. -/
def saveInventoryRow (db : DB) (i : Inventory) : DB :=
  { db with inventories := updateFirst (fun x => x.productId == i.productId) i db.inventories }

/-- `product.save()`: update by primary key. -/
def saveProductRow (db : DB) (p : Product) : DB :=
  { db with products := updateFirst (fun x => x.id == p.id) p db.products }

/-- `logOrderActivity(...)` from `orderActivityLogger`: append one
OrderActivity row to the append-only log. -/
def logActivityRow (db : DB) (a : Activity) : DB :=
  { db with activities := db.activities ++ [a] }

/-- `db.Order.findByPk(id)` (the body of `getOrderById`). -/
def getOrderById (db : DB) (id : Nat) : Option Order :=
  db.orders.find? (fun o => o.id == id)

/-- Descending order on `createdAt`, the sort key of `getAllOrders`
(`order: [['createdAt', 'DESC']]`). -/
def createdAtDesc (a b : Order) : Prop :=
  b.createdAt ≤ a.createdAt

instance : DecidableRel createdAtDesc :=
  fun a b => inferInstanceAs (Decidable (b.createdAt ≤ a.createdAt))

instance : IsTotal Order createdAtDesc :=
  ⟨fun a b => le_total b.createdAt a.createdAt⟩

instance : IsTrans Order createdAtDesc :=
  ⟨fun _ _ _ h h2 => le_trans h2 h⟩

/-- `getAllOrders(role, accountId)`: a `User` sees their own
non-`cancelled` orders, any other role sees every order whose status is
in `['pending','processing','shipped','delivered']`; results sorted by
`createdAt` descending.  (The attribute/include projections of the
source only trim columns and are not modelled.) -/
def getAllOrders (db : DB) (role : String) (accountId : Nat) : List Order :=
  let filtered :=
    if role == "User" then
      db.orders.filter (fun o => o.AccountId == accountId && o.orderStatus != OrderStatus.cancelled)
    else
      db.orders.filter (fun o =>
        o.orderStatus == OrderStatus.pending || o.orderStatus == OrderStatus.processing ||
        o.orderStatus == OrderStatus.shipped || o.orderStatus == OrderStatus.delivered)
  List.insertionSort createdAtDesc filtered

/-- Input bag of `createOrder` (`{AccountId, productId, quantity?,
shippingAddress, ipAddress, browserInfo}`). -/
structure CreateOrderParams where
  AccountId : Nat
  productId : Nat
  quantity : Option Nat
  shippingAddress : String
  ipAddress : String
  browserInfo : String
deriving Repr

/-- JS `params.quantity || 1`: `undefined` and the falsy number `0` both
fall back to the default `1`. -/
def jsQuantityOrDefault : Option Nat → Nat
  | some n => if n = 0 then 1 else n
  | none => 1

/-- The error message built by
``throw `Insufficient stock. Only ${inventory.quantity} items available.` ``. -/
def insufficientStockMsg (available : Nat) : String :=
  "Insufficient stock. Only " ++ toString available ++ " items available."

/-- Modelled from the spec: the Sequelize `Order` model definition is not
among the source files; per §4.2 / §4.1 a newly persisted order has the
initial status `pending` (the model default, since `createOrder` passes
no `orderStatus`). -/
def newOrderStatus : OrderStatus := OrderStatus.pending

/-- `createOrder(params)`: validate account, product, product activity,
inventory, stock (fail fast, in that order); then build the order with
`totalAmount = price * requestedQuantity`, save it, log one `created`
activity, decrement inventory, and save the inventory row.  (The source
finally re-fetches the saved order with Account/Product projections;
the re-fetch only trims columns and is not modelled.) -/
def createOrder (db : DB) (params : CreateOrderParams) :
    Except String Order × DB × List Effect :=
  match db.accounts.find? (fun a => a.id == params.AccountId) with
  | none => (.error "Account not found", db, [])
  | some account =>
    match db.products.find? (fun p => p.id == params.productId) with
    | none => (.error "Product not found", db, [])
    | some product =>
      if product.productStatus ≠ "active" then
        (.error "Product is not available", db, [])
      else
        match db.inventories.find? (fun i => i.productId == product.id) with
        | none => (.error "Inventory not found for this product", db, [])
        | some inventory =>
          let requestedQuantity := jsQuantityOrDefault params.quantity
          if inventory.quantity < requestedQuantity then
            (.error (insufficientStockMsg inventory.quantity), db, [])
          else
            let totalAmount := product.price * requestedQuantity
            let order : Order :=
              { id := db.nextOrderId
                AccountId := account.id
                productId := product.id
                quantity := requestedQuantity
                totalAmount := totalAmount
                orderStatus := newOrderStatus
                shippingAddress := params.shippingAddress
                createdAt := db.now }
            let db1 := { db with
              orders := db.orders ++ [order]
              nextOrderId := db.nextOrderId + 1 }
            let activity : Activity :=
              { accountId := account.id
                orderId := order.id
                action := "created"
                description := "Created order for " ++ toString requestedQuantity ++
                  " units of product " ++ product.name
                ipAddress := params.ipAddress
                browserInfo := params.browserInfo }
            let db2 := logActivityRow db1 activity
            let inventory2 := { inventory with quantity := inventory.quantity - requestedQuantity }
            let db3 := saveInventoryRow db2 inventory2
            (.ok order, db3,
              [Effect.saveOrder order, Effect.logActivity activity, Effect.saveInventory inventory2])

/-- The bag of fields `updateOrder` merges into the order via
`Object.assign(order, params)`: a present field overwrites, an absent
field keeps the prior value.  Only the order's mutable columns are
modelled. -/
structure UpdateOrderParams where
  orderStatus : Option OrderStatus := none
  quantity : Option Nat := none
  totalAmount : Option Nat := none
  shippingAddress : Option String := none
deriving Repr

/-- `Object.assign(order, params)`. -/
def objectAssign (o : Order) (p : UpdateOrderParams) : Order :=
  { o with
    orderStatus := p.orderStatus.getD o.orderStatus
    quantity := p.quantity.getD o.quantity
    totalAmount := p.totalAmount.getD o.totalAmount
    shippingAddress := p.shippingAddress.getD o.shippingAddress }

/-- `updateOrder(id, params, AccountId, ipAddress, browserInfo)`. -/
def updateOrder (db : DB) (id : Nat) (params : UpdateOrderParams)
    (accountId : Nat) (ipAddress browserInfo : String) :
    Except String Order × DB × List Effect :=
  match db.orders.find? (fun o => o.id == id) with
  | none => (.error "Order not found", db, [])
  | some order =>
    if order.orderStatus == OrderStatus.cancelled then
      (.error "Cannot update a cancelled order", db, [])
    else
      let oldStatus := order.orderStatus
      let updated := objectAssign order params
      let db1 := saveOrderRow db updated
      let activity : Activity :=
        { accountId := accountId
          orderId := updated.id
          action := "updated"
          description := "Updated order. Status changed from '" ++ statusString oldStatus ++
            "' to '" ++ statusString updated.orderStatus ++ "'"
          ipAddress := ipAddress
          browserInfo := browserInfo }
      let db2 := logActivityRow db1 activity
      (.ok updated, db2, [Effect.saveOrder updated, Effect.logActivity activity])

/-- `cancelOrder(id, AccountId, ipAddress, browserInfo)`: refuse if
already `cancelled`, refuse if `shipped`/`delivered`; otherwise set the
status to `cancelled`, save, log one `cancelled` activity, then fetch the
associated product and, when it exists, set `isAvailable = false` and
save it. -/
def cancelOrder (db : DB) (id accountId : Nat) (ipAddress browserInfo : String) :
    Except String Order × DB × List Effect :=
  match getOrderById db id with
  | none => (.error "Order not found", db, [])
  | some order =>
    if order.orderStatus == OrderStatus.cancelled then
      (.error "Order is already cancelled", db, [])
    else if order.orderStatus == OrderStatus.shipped || order.orderStatus == OrderStatus.delivered then
      (.error "Cannot cancel order that has been shipped or delivered", db, [])
    else
      let oldStatus := order.orderStatus
      let cancelledOrder := { order with orderStatus := OrderStatus.cancelled }
      let db1 := saveOrderRow db cancelledOrder
      let activity : Activity :=
        { accountId := accountId
          orderId := cancelledOrder.id
          action := "cancelled"
          description := "Cancelled order. Previous status: " ++ statusString oldStatus
          ipAddress := ipAddress
          browserInfo := browserInfo }
      let db2 := logActivityRow db1 activity
      match db2.products.find? (fun p => p.id == order.productId) with
      | some product =>
        let product2 := { product with isAvailable := false }
        let db3 := saveProductRow db2 product2
        (.ok cancelledOrder, db3,
          [Effect.saveOrder cancelledOrder, Effect.logActivity activity, Effect.saveProduct product2])
      | none =>
        (.ok cancelledOrder, db2,
          [Effect.saveOrder cancelledOrder, Effect.logActivity activity])

/-- `trackOrderStatus(id, accountId)`: `findOne({where: {id, AccountId}})`
and return only the status; any miss is the single conflated error. -/
def trackOrderStatus (db : DB) (id accountId : Nat) : Except String OrderStatus :=
  match db.orders.find? (fun o => o.id == id && o.AccountId == accountId) with
  | some order => .ok order.orderStatus
  | none => .error "Order not found or unauthorized access"

/-- `processOrder(id, AccountId, ipAddress, browserInfo)`: refuse only a
`cancelled` order, set the status to `processing`, save, log one
`processed` activity.  The JS function returns `undefined`. -/
def processOrder (db : DB) (id accountId : Nat) (ipAddress browserInfo : String) :
    Except String Unit × DB × List Effect :=
  match getOrderById db id with
  | none => (.error "Order not found", db, [])
  | some order =>
    if order.orderStatus == OrderStatus.cancelled then
      (.error "Cannot process a cancelled order", db, [])
    else
      let oldStatus := order.orderStatus
      let updated := { order with orderStatus := OrderStatus.processing }
      let db1 := saveOrderRow db updated
      let activity : Activity :=
        { accountId := accountId
          orderId := updated.id
          action := "processed"
          description := "Processed order. Status changed from '" ++ statusString oldStatus ++
            "' to 'processing'"
          ipAddress := ipAddress
          browserInfo := browserInfo }
      let db2 := logActivityRow db1 activity
      (.ok (), db2, [Effect.saveOrder updated, Effect.logActivity activity])

/-- `shipOrder(id)`: refuse only a `cancelled` order, set status to
`shipped`, save.  No activity is logged. -/
def shipOrder (db : DB) (id : Nat) : Except String Unit × DB × List Effect :=
  match getOrderById db id with
  | none => (.error "Order not found", db, [])
  | some order =>
    if order.orderStatus == OrderStatus.cancelled then
      (.error "Cannot ship a cancelled order", db, [])
    else
      let updated := { order with orderStatus := OrderStatus.shipped }
      (.ok (), saveOrderRow db updated, [Effect.saveOrder updated])

/-- `deliverOrder(id)`: refuse only a `cancelled` order, set status to
`delivered`, save.  No activity is logged. -/
def deliverOrder (db : DB) (id : Nat) : Except String Unit × DB × List Effect :=
  match getOrderById db id with
  | none => (.error "Order not found", db, [])
  | some order =>
    if order.orderStatus == OrderStatus.cancelled then
      (.error "Cannot deliver a cancelled order", db, [])
    else
      let updated := { order with orderStatus := OrderStatus.delivered }
      (.ok (), saveOrderRow db updated, [Effect.saveOrder updated])

/-- `getOrderActivities(orderId, AccountId, filters)`: when no order with
`orderId` exists it throws `'Order not found'`.  When the order exists,
the source evaluates `orderActivityLogger.getOrderActivities(...)`, but
the module binds only `logOrderActivity` (line 3 destructures the
require); the identifier `orderActivityLogger` is never defined, so in
Node the call site raises `ReferenceError: orderActivityLogger is not
defined` instead of delegating to the logger's query interface.  The
embedding renders that crash as this error value. -/
def getOrderActivities (db : DB) (orderId accountId : Nat)
    (filters : List (String × String)) : Except String (List Activity) :=
  match getOrderById db orderId with
  | none => .error "Order not found"
  | some _ => .error "ReferenceError: orderActivityLogger is not defined"

/-! ### Helper lemmas -/

theorem find?_updateFirst {α : Type} {p : α → Bool} {l : List α} {x : α} (v : α)
    (h : l.find? p = some x) (hv : p v = true) :
    (updateFirst p v l).find? p = some v := by
  induction l with
  | nil => simp at h
  | cons a l ih =>
    by_cases ha : p a = true
    · simp [updateFirst, ha, hv]
    · rw [List.find?_cons_of_neg _ (by simp [ha])] at h
      simpa [updateFirst, ha] using ih h

/-! ### C1: successful order creation -/

/-- C1. For every account, active product, and inventory record at
quantity `q`, `createOrder` with a requested quantity `k`, `1 ≤ k ≤ q`,
succeeds and, in order, computes `totalAmount = price * k`, persists
exactly one new `pending` order, emits exactly one `created` activity,
and decrements the product's inventory from `q` to `q - k`. -/
theorem createOrder_success
    (db : DB) (params : CreateOrderParams) (acct : Account) (prod : Product)
    (inv : Inventory) (k : Nat)
    (hacc : db.accounts.find? (fun a => a.id == params.AccountId) = some acct)
    (hprod : db.products.find? (fun p => p.id == params.productId) = some prod)
    (hactive : prod.productStatus = "active")
    (hinv : db.inventories.find? (fun i => i.productId == prod.id) = some inv)
    (hq : params.quantity = some k)
    (hk1 : 1 ≤ k) (hkq : k ≤ inv.quantity) :
    ∃ o act db₂,
      createOrder db params =
        (Except.ok o, db₂,
          [Effect.saveOrder o, Effect.logActivity act,
            Effect.saveInventory { inv with quantity := inv.quantity - k }]) ∧
      o.totalAmount = prod.price * k ∧
      o.orderStatus = OrderStatus.pending ∧
      o.quantity = k ∧
      act.action = "created" ∧
      db₂.orders = db.orders ++ [o] ∧
      db₂.activities = db.activities ++ [act] ∧
      db₂.inventories.find? (fun i => i.productId == prod.id) =
        some { inv with quantity := inv.quantity - k } := by
  have hk0 : k ≠ 0 := by omega
  have hreq : jsQuantityOrDefault params.quantity = k := by
    rw [hq]; simp [jsQuantityOrDefault, hk0]
  have hpid : inv.productId = prod.id := by
    have h := List.find?_some hinv
    simpa using h
  have hnlt : ¬ inv.quantity < k := Nat.not_lt.mpr hkq
  refine ⟨⟨db.nextOrderId, acct.id, prod.id, k, prod.price * k, newOrderStatus,
      params.shippingAddress, db.now⟩,
    ⟨acct.id, db.nextOrderId, "created",
      "Created order for " ++ toString k ++ " units of product " ++ prod.name,
      params.ipAddress, params.browserInfo⟩,
    ?_, ?_, rfl, rfl, rfl, rfl, ?_, ?_, ?_⟩
  rotate_left
  · simp only [createOrder, hacc, hprod, hactive, hinv, hreq, ne_eq,
      not_true_eq_false, if_false, hnlt]
    exact rfl
  · simp [saveInventoryRow, logActivityRow]
  · simp [saveInventoryRow, logActivityRow]
  · simp only [saveInventoryRow, logActivityRow, hpid]
    exact find?_updateFirst _ hinv (by simp [hpid])

/-- Concrete store for the C1 witness: one account, one active product at
price 10, inventory 5. -/
def dbC1 : DB :=
  { accounts := [{ id := 1, email := "user@example.com" }]
    products := [{ id := 2, name := "Widget", price := 10,
                   productStatus := "active", isAvailable := true }]
    inventories := [{ productId := 2, quantity := 5 }]
    orders := []
    activities := []
    nextOrderId := 100
    now := 50 }

/-- Concrete createOrder input for the C1 witness: quantity 3. -/
def paramsC1 : CreateOrderParams :=
  { AccountId := 1, productId := 2, quantity := some 3,
    shippingAddress := "1 Main St", ipAddress := "127.0.0.1",
    browserInfo := "test-agent" }

/-- Witness for C1 at a concrete input (price 10, quantity 3, stock 5). -/
theorem createOrder_success_witness :
    ∃ o act db₂,
      createOrder dbC1 paramsC1 =
        (Except.ok o, db₂,
          [Effect.saveOrder o, Effect.logActivity act,
            Effect.saveInventory { productId := 2, quantity := 2 }]) ∧
      o.totalAmount = 30 ∧
      o.orderStatus = OrderStatus.pending ∧
      o.quantity = 3 ∧
      act.action = "created" ∧
      db₂.orders = dbC1.orders ++ [o] ∧
      db₂.activities = dbC1.activities ++ [act] ∧
      db₂.inventories.find? (fun i => i.productId == 2) =
        some { productId := 2, quantity := 2 } :=
  createOrder_success dbC1 paramsC1
    { id := 1, email := "user@example.com" }
    { id := 2, name := "Widget", price := 10, productStatus := "active", isAvailable := true }
    { productId := 2, quantity := 5 } 3
    rfl rfl rfl rfl rfl (by decide) (by decide)

/-! ### C2: insufficient stock -/

/-- C2. For every inventory record at quantity `q`, `createOrder` with a
requested quantity `k > q` fails with the insufficient-stock error
carrying `available = q`, and leaves the whole store unchanged with no
persistence effects. -/
theorem createOrder_insufficient_stock
    (db : DB) (params : CreateOrderParams) (acct : Account) (prod : Product)
    (inv : Inventory) (k : Nat)
    (hacc : db.accounts.find? (fun a => a.id == params.AccountId) = some acct)
    (hprod : db.products.find? (fun p => p.id == params.productId) = some prod)
    (hactive : prod.productStatus = "active")
    (hinv : db.inventories.find? (fun i => i.productId == prod.id) = some inv)
    (hq : params.quantity = some k)
    (hkq : inv.quantity < k) :
    createOrder db params = (Except.error (insufficientStockMsg inv.quantity), db, []) := by
  have hk0 : k ≠ 0 := by omega
  have hreq : jsQuantityOrDefault params.quantity = k := by
    rw [hq]; simp [jsQuantityOrDefault, hk0]
  simp only [createOrder, hacc, hprod, hactive, hinv, hreq, ne_eq,
    not_true_eq_false, if_false, if_pos hkq]

/-- Concrete store for the C2 witness: stock 5. -/
def dbC2 : DB :=
  { accounts := [{ id := 1, email := "user@example.com" }]
    products := [{ id := 2, name := "Widget", price := 10,
                   productStatus := "active", isAvailable := true }]
    inventories := [{ productId := 2, quantity := 5 }]
    orders := []
    activities := []
    nextOrderId := 100
    now := 50 }

/-- Concrete createOrder input for the C2 witness: quantity 9 > stock 5. -/
def paramsC2 : CreateOrderParams :=
  { AccountId := 1, productId := 2, quantity := some 9,
    shippingAddress := "1 Main St", ipAddress := "127.0.0.1",
    browserInfo := "test-agent" }

/-- Witness for C2: requesting 9 of 5 fails with the message carrying 5,
no store change, no effects. -/
theorem createOrder_insufficient_stock_witness :
    createOrder dbC2 paramsC2 =
      (Except.error "Insufficient stock. Only 5 items available.", dbC2, []) :=
  createOrder_insufficient_stock dbC2 paramsC2
    { id := 1, email := "user@example.com" }
    { id := 2, name := "Widget", price := 10, productStatus := "active", isAvailable := true }
    { productId := 2, quantity := 5 } 9
    rfl rfl rfl rfl rfl (by decide)

/-! ### C9: fail-fast validation order -/

/-- C9. `createOrder` validates in a fixed fail-fast order: a missing
account wins over every later check; with the account present a missing
product wins; with the product present an inactive product wins; with an
active product a missing inventory record wins; only past all four does
the stock comparison decide. -/
theorem createOrder_validation_order (db : DB) (params : CreateOrderParams) :
    (db.accounts.find? (fun a => a.id == params.AccountId) = none →
      createOrder db params = (Except.error "Account not found", db, []))
  ∧ (∀ acct, db.accounts.find? (fun a => a.id == params.AccountId) = some acct →
      db.products.find? (fun p => p.id == params.productId) = none →
      createOrder db params = (Except.error "Product not found", db, []))
  ∧ (∀ acct prod, db.accounts.find? (fun a => a.id == params.AccountId) = some acct →
      db.products.find? (fun p => p.id == params.productId) = some prod →
      prod.productStatus ≠ "active" →
      createOrder db params = (Except.error "Product is not available", db, []))
  ∧ (∀ acct prod, db.accounts.find? (fun a => a.id == params.AccountId) = some acct →
      db.products.find? (fun p => p.id == params.productId) = some prod →
      prod.productStatus = "active" →
      db.inventories.find? (fun i => i.productId == prod.id) = none →
      createOrder db params = (Except.error "Inventory not found for this product", db, [])) := by
  refine ⟨?_, ?_, ?_, ?_⟩
  · intro h
    simp only [createOrder, h]
  · intro acct h1 h2
    simp only [createOrder, h1, h2]
  · intro acct prod h1 h2 h3
    simp only [createOrder, h1, h2, ne_eq, h3, not_false_eq_true, if_true]
  · intro acct prod h1 h2 h3 h4
    simp only [createOrder, h1, h2, h3, ne_eq, not_true_eq_false, if_false, h4]

/-- Concrete store for the C9 witness: no account rows at all. -/
def dbC9 : DB :=
  { accounts := []
    products := [{ id := 2, name := "Widget", price := 10,
                   productStatus := "active", isAvailable := true }]
    inventories := [{ productId := 2, quantity := 5 }]
    orders := []
    activities := []
    nextOrderId := 100
    now := 50 }

/-- Concrete createOrder input for the C9 witness. -/
def paramsC9 : CreateOrderParams :=
  { AccountId := 1, productId := 2, quantity := some 1,
    shippingAddress := "1 Main St", ipAddress := "127.0.0.1",
    browserInfo := "test-agent" }

/-- Witness for C9: with the account missing the first check wins. -/
theorem createOrder_validation_order_witness :
    createOrder dbC9 paramsC9 = (Except.error "Account not found", dbC9, []) :=
  (createOrder_validation_order dbC9 paramsC9).1 rfl

/-! ### C10: explicit quantity 0 falls back to 1 -/

/-- C10. An explicit requested quantity of `0` is falsy in
`params.quantity || 1`, so the effective quantity becomes `1`: the order
is created with quantity 1 and `totalAmount` equal to the unit price, and
the inventory is decremented by 1. -/
theorem createOrder_zero_quantity
    (db : DB) (params : CreateOrderParams) (acct : Account) (prod : Product)
    (inv : Inventory)
    (hacc : db.accounts.find? (fun a => a.id == params.AccountId) = some acct)
    (hprod : db.products.find? (fun p => p.id == params.productId) = some prod)
    (hactive : prod.productStatus = "active")
    (hinv : db.inventories.find? (fun i => i.productId == prod.id) = some inv)
    (hq : params.quantity = some 0)
    (hstock : 1 ≤ inv.quantity) :
    ∃ o act db₂,
      createOrder db params =
        (Except.ok o, db₂,
          [Effect.saveOrder o, Effect.logActivity act,
            Effect.saveInventory { inv with quantity := inv.quantity - 1 }]) ∧
      o.quantity = 1 ∧
      o.totalAmount = prod.price ∧
      db₂.inventories.find? (fun i => i.productId == prod.id) =
        some { inv with quantity := inv.quantity - 1 } := by
  have hreq : jsQuantityOrDefault params.quantity = 1 := by
    rw [hq]; simp [jsQuantityOrDefault]
  have hpid : inv.productId = prod.id := by
    have h := List.find?_some hinv
    simpa using h
  have hnlt : ¬ inv.quantity < 1 := by omega
  refine ⟨⟨db.nextOrderId, acct.id, prod.id, 1, prod.price * 1, newOrderStatus,
      params.shippingAddress, db.now⟩,
    ⟨acct.id, db.nextOrderId, "created",
      "Created order for " ++ toString 1 ++ " units of product " ++ prod.name,
      params.ipAddress, params.browserInfo⟩,
    ?_, ?_, rfl, Nat.mul_one prod.price, ?_⟩
  rotate_left
  · simp only [createOrder, hacc, hprod, hactive, hinv, hreq, ne_eq,
      not_true_eq_false, if_false, hnlt]
    exact rfl
  · simp only [saveInventoryRow, logActivityRow, hpid]
    exact find?_updateFirst _ hinv (by simp [hpid])

/-- Concrete store for the C10 witness. -/
def dbC10 : DB :=
  { accounts := [{ id := 1, email := "user@example.com" }]
    products := [{ id := 2, name := "Widget", price := 10,
                   productStatus := "active", isAvailable := true }]
    inventories := [{ productId := 2, quantity := 5 }]
    orders := []
    activities := []
    nextOrderId := 100
    now := 50 }

/-- Concrete createOrder input for the C10 witness: explicit quantity 0. -/
def paramsC10 : CreateOrderParams :=
  { AccountId := 1, productId := 2, quantity := some 0,
    shippingAddress := "1 Main St", ipAddress := "127.0.0.1",
    browserInfo := "test-agent" }

/-- Witness for C10: quantity 0 yields an order of quantity 1 at unit
price 10 and decrements stock 5 to 4. -/
theorem createOrder_zero_quantity_witness :
    ∃ o act db₂,
      createOrder dbC10 paramsC10 =
        (Except.ok o, db₂,
          [Effect.saveOrder o, Effect.logActivity act,
            Effect.saveInventory { productId := 2, quantity := 4 }]) ∧
      o.quantity = 1 ∧
      o.totalAmount = 10 ∧
      db₂.inventories.find? (fun i => i.productId == 2) =
        some { productId := 2, quantity := 4 } :=
  createOrder_zero_quantity dbC10 paramsC10
    { id := 1, email := "user@example.com" }
    { id := 2, name := "Widget", price := 10, productStatus := "active", isAvailable := true }
    { productId := 2, quantity := 5 }
    rfl rfl rfl rfl rfl (by decide)

/-! ### C3: operations on a shipped order -/

/-- Concrete store for C3: one order in status `shipped`. -/
def dbC3 : DB :=
  { accounts := [{ id := 1, email := "user@example.com" }]
    products := [{ id := 2, name := "Widget", price := 10,
                   productStatus := "active", isAvailable := true }]
    inventories := [{ productId := 2, quantity := 5 }]
    orders := [{ id := 1, AccountId := 1, productId := 2, quantity := 1,
                 totalAmount := 10, orderStatus := OrderStatus.shipped,
                 shippingAddress := "1 Main St", createdAt := 10 }]
    activities := []
    nextOrderId := 2
    now := 20 }

/-- Counterexample to C3 as stated: on an order in status `shipped`,
`processOrder` does not fail — its guard only excludes `cancelled` — it
succeeds and moves the order back to `processing`. -/
theorem processOrder_succeeds_on_shipped :
    (getOrderById dbC3 1).map (fun o => o.orderStatus) = some OrderStatus.shipped
  ∧ (processOrder dbC3 1 1 "127.0.0.1" "test-agent").1 = Except.ok ()
  ∧ ((processOrder dbC3 1 1 "127.0.0.1" "test-agent").2.1.orders.find?
      (fun o => o.id == 1)).map (fun o => o.orderStatus) = some OrderStatus.processing :=
  ⟨rfl, rfl, rfl⟩

/-- C3 amended. For every order in status `shipped`: `cancelOrder` fails
and leaves the store unchanged; `deliverOrder` succeeds and sets the
status to `delivered`; and `processOrder` — contrary to the claim — also
succeeds, setting the status to `processing`. -/
theorem shipped_order_transitions
    (db : DB) (id accountId : Nat) (ip ua : String) (o : Order)
    (h : getOrderById db id = some o)
    (hs : o.orderStatus = OrderStatus.shipped) :
    cancelOrder db id accountId ip ua =
      (Except.error "Cannot cancel order that has been shipped or delivered", db, [])
  ∧ (deliverOrder db id).1 = Except.ok ()
  ∧ (deliverOrder db id).2.1.orders.find? (fun x => x.id == id) =
      some { o with orderStatus := OrderStatus.delivered }
  ∧ (processOrder db id accountId ip ua).1 = Except.ok ()
  ∧ (processOrder db id accountId ip ua).2.1.orders.find? (fun x => x.id == id) =
      some { o with orderStatus := OrderStatus.processing } := by
  have h' : db.orders.find? (fun x => x.id == id) = some o := h
  have hid : o.id = id := by
    have hx := List.find?_some h'
    simpa using hx
  refine ⟨?_, ?_, ?_, ?_, ?_⟩
  · simp [cancelOrder, h, hs]
  · simp [deliverOrder, h, hs]
  · have hupd : (deliverOrder db id).2.1 =
        saveOrderRow db { o with orderStatus := OrderStatus.delivered } := by
      simp [deliverOrder, h, hs]
    rw [hupd]
    simp only [saveOrderRow]
    have hpred : (fun (x : Order) => x.id == ({ o with orderStatus := OrderStatus.delivered } : Order).id)
        = (fun (x : Order) => x.id == id) := by
      simp [hid]
    rw [hpred]
    exact find?_updateFirst _ h' (by simp [hid])
  · simp [processOrder, h, hs]
  · have hupd : (processOrder db id accountId ip ua).2.1 =
        logActivityRow (saveOrderRow db { o with orderStatus := OrderStatus.processing })
          ⟨accountId, ({ o with orderStatus := OrderStatus.processing } : Order).id, "processed",
            "Processed order. Status changed from '" ++ statusString o.orderStatus ++ "' to 'processing'",
            ip, ua⟩ := by
      simp [processOrder, h, hs]
    rw [hupd]
    simp only [logActivityRow, saveOrderRow]
    have hpred : (fun (x : Order) => x.id == ({ o with orderStatus := OrderStatus.processing } : Order).id)
        = (fun (x : Order) => x.id == id) := by
      simp [hid]
    rw [hpred]
    exact find?_updateFirst _ h' (by simp [hid])

/-- Witness for the amended C3 at the concrete shipped order. -/
theorem shipped_order_transitions_witness :
    cancelOrder dbC3 1 1 "127.0.0.1" "test-agent" =
      (Except.error "Cannot cancel order that has been shipped or delivered", dbC3, [])
  ∧ (deliverOrder dbC3 1).1 = Except.ok ()
  ∧ (deliverOrder dbC3 1).2.1.orders.find? (fun x => x.id == 1) =
      some { id := 1, AccountId := 1, productId := 2, quantity := 1,
             totalAmount := 10, orderStatus := OrderStatus.delivered,
             shippingAddress := "1 Main St", createdAt := 10 }
  ∧ (processOrder dbC3 1 1 "127.0.0.1" "test-agent").1 = Except.ok ()
  ∧ (processOrder dbC3 1 1 "127.0.0.1" "test-agent").2.1.orders.find? (fun x => x.id == 1) =
      some { id := 1, AccountId := 1, productId := 2, quantity := 1,
             totalAmount := 10, orderStatus := OrderStatus.processing,
             shippingAddress := "1 Main St", createdAt := 10 } :=
  shipped_order_transitions dbC3 1 1 "127.0.0.1" "test-agent"
    { id := 1, AccountId := 1, productId := 2, quantity := 1,
      totalAmount := 10, orderStatus := OrderStatus.shipped,
      shippingAddress := "1 Main St", createdAt := 10 }
    rfl rfl

/-- Saving an order row whose id matches the id that located `o` makes
the subsequent lookup by that id return the saved row. -/
theorem find?_saveOrderRow (db : DB) (id : Nat) (o o₂ : Order)
    (h : db.orders.find? (fun x => x.id == id) = some o)
    (hid : o₂.id = o.id) :
    (saveOrderRow db o₂).orders.find? (fun x => x.id == id) = some o₂ := by
  have hoid : o.id = id := by simpa using List.find?_some h
  simp only [saveOrderRow]
  have hpred : (fun (x : Order) => x.id == o₂.id) = (fun (x : Order) => x.id == id) := by
    simp [hid, hoid]
  rw [hpred]
  exact find?_updateFirst _ h (by simp [hid, hoid])

/-! ### C4: cancelOrder -/

/-- C4. Cancelling an existing order succeeds exactly from `pending` or
`processing`: it sets the status to `cancelled`, flips the associated
product's `isAvailable` to false, and emits one `cancelled` activity;
from `shipped`, `delivered` or `cancelled` it fails and leaves the store
unchanged. -/
theorem cancelOrder_spec
    (db : DB) (id accountId : Nat) (ip ua : String) (o : Order) (prod : Product)
    (h : getOrderById db id = some o)
    (hp : db.products.find? (fun p => p.id == o.productId) = some prod) :
    ((o.orderStatus = OrderStatus.pending ∨ o.orderStatus = OrderStatus.processing) →
      ∃ act db₂,
        cancelOrder db id accountId ip ua =
          (Except.ok { o with orderStatus := OrderStatus.cancelled }, db₂,
            [Effect.saveOrder { o with orderStatus := OrderStatus.cancelled },
              Effect.logActivity act,
              Effect.saveProduct { prod with isAvailable := false }]) ∧
        act.action = "cancelled" ∧
        db₂.orders.find? (fun x => x.id == id) =
          some { o with orderStatus := OrderStatus.cancelled } ∧
        db₂.products.find? (fun p => p.id == o.productId) =
          some { prod with isAvailable := false } ∧
        db₂.activities = db.activities ++ [act])
  ∧ ((o.orderStatus = OrderStatus.shipped ∨ o.orderStatus = OrderStatus.delivered ∨
        o.orderStatus = OrderStatus.cancelled) →
      ∃ e, cancelOrder db id accountId ip ua = (Except.error e, db, [])) := by
  have h' : db.orders.find? (fun x => x.id == id) = some o := h
  have hoid : o.id = id := by simpa using List.find?_some h'
  have hppid : prod.id = o.productId := by simpa using List.find?_some hp
  constructor
  · intro hs
    refine ⟨⟨accountId, o.id, "cancelled",
        "Cancelled order. Previous status: " ++ statusString o.orderStatus, ip, ua⟩,
      ?_, ?_, rfl, ?_, ?_, ?_⟩
    rotate_left
    · have hnc : (o.orderStatus == OrderStatus.cancelled) = false := by
        rcases hs with h1 | h1 <;> simp [h1]
      have hns : (o.orderStatus == OrderStatus.shipped) = false := by
        rcases hs with h1 | h1 <;> simp [h1]
      have hnd : (o.orderStatus == OrderStatus.delivered) = false := by
        rcases hs with h1 | h1 <;> simp [h1]
      simp only [cancelOrder, h, hnc, hns, hnd, Bool.or_self, Bool.false_eq_true,
        if_false, logActivityRow, saveOrderRow]
      simp only [hp]
      exact rfl
    · exact find?_saveOrderRow db id o { o with orderStatus := OrderStatus.cancelled } h' rfl
    · simp only [saveProductRow, logActivityRow, saveOrderRow]
      have hpred : (fun (x : Product) => x.id == ({ prod with isAvailable := false } : Product).id)
          = (fun (x : Product) => x.id == o.productId) := by
        simp [hppid]
      rw [hpred]
      exact find?_updateFirst _ hp (by simp [hppid])
    · simp [saveProductRow, logActivityRow, saveOrderRow]
  · intro hs
    rcases hs with h1 | h1 | h1
    · exact ⟨"Cannot cancel order that has been shipped or delivered", by simp [cancelOrder, h, h1]⟩
    · exact ⟨"Cannot cancel order that has been shipped or delivered", by simp [cancelOrder, h, h1]⟩
    · exact ⟨"Order is already cancelled", by simp [cancelOrder, h, h1]⟩

/-- The pending order used by the C4 witness. -/
def ordC4 : Order :=
  { id := 1, AccountId := 1, productId := 2, quantity := 3,
    totalAmount := 30, orderStatus := OrderStatus.pending,
    shippingAddress := "1 Main St", createdAt := 10 }

/-- `ordC4` after cancellation. -/
def ordC4c : Order :=
  { ordC4 with orderStatus := OrderStatus.cancelled }

/-- The product used by the C4 witness. -/
def prodC4 : Product :=
  { id := 2, name := "Widget", price := 10, productStatus := "active", isAvailable := true }

/-- `prodC4` after deactivation. -/
def prodC4off : Product :=
  { prodC4 with isAvailable := false }

/-- Concrete store for the C4 witness: one pending order for product 2. -/
def dbC4 : DB :=
  { accounts := [{ id := 1, email := "user@example.com" }]
    products := [prodC4]
    inventories := [{ productId := 2, quantity := 5 }]
    orders := [ordC4]
    activities := []
    nextOrderId := 2
    now := 20 }

/-- Witness for C4: cancelling the concrete pending order succeeds,
deactivates the product, and logs one `cancelled` activity. -/
theorem cancelOrder_spec_witness :
    ∃ act db₂,
      cancelOrder dbC4 1 1 "127.0.0.1" "test-agent" =
        (Except.ok ordC4c, db₂,
          [Effect.saveOrder ordC4c, Effect.logActivity act, Effect.saveProduct prodC4off]) ∧
      act.action = "cancelled" ∧
      db₂.orders.find? (fun x => x.id == 1) = some ordC4c ∧
      db₂.products.find? (fun p => p.id == 2) = some prodC4off ∧
      db₂.activities = dbC4.activities ++ [act] :=
  (cancelOrder_spec dbC4 1 1 "127.0.0.1" "test-agent" ordC4 prodC4 rfl rfl).1 (Or.inl rfl)

/-! ### C5: getAllOrders role-gated view -/

/-- C5. `getAllOrders` is sorted by creation time descending; for the
`User` role it returns exactly the caller's non-`cancelled` orders, and
for every other role exactly the orders (of all accounts) whose status is
in `{pending, processing, shipped, delivered}` — so a `cancelled` order
is never returned in either case. -/
theorem getAllOrders_spec (db : DB) (role : String) (accountId : Nat) :
    List.Sorted createdAtDesc (getAllOrders db role accountId)
  ∧ (role = "User" → ∀ o : Order, o ∈ getAllOrders db role accountId ↔
      (o ∈ db.orders ∧ o.AccountId = accountId ∧ o.orderStatus ≠ OrderStatus.cancelled))
  ∧ (role ≠ "User" → ∀ o : Order, o ∈ getAllOrders db role accountId ↔
      (o ∈ db.orders ∧ (o.orderStatus = OrderStatus.pending ∨
        o.orderStatus = OrderStatus.processing ∨
        o.orderStatus = OrderStatus.shipped ∨
        o.orderStatus = OrderStatus.delivered))) := by
  refine ⟨List.sorted_insertionSort createdAtDesc _, ?_, ?_⟩
  · intro hrole o
    simp [getAllOrders, hrole, List.mem_filter, and_assoc]
  · intro hrole o
    have hb : (role == "User") = false := by simpa using hrole
    simp [getAllOrders, hb, List.mem_filter, or_assoc]

/-- Orders used by the C5 witness. -/
def ordC5a : Order :=
  { id := 1, AccountId := 1, productId := 2, quantity := 1,
    totalAmount := 10, orderStatus := OrderStatus.pending,
    shippingAddress := "1 Main St", createdAt := 10 }

/-- A cancelled order of the same account, for the C5 witness. -/
def ordC5b : Order :=
  { id := 2, AccountId := 1, productId := 2, quantity := 1,
    totalAmount := 10, orderStatus := OrderStatus.cancelled,
    shippingAddress := "1 Main St", createdAt := 20 }

/-- Concrete store for the C5 witness. -/
def dbC5 : DB :=
  { accounts := [{ id := 1, email := "user@example.com" }]
    products := [{ id := 2, name := "Widget", price := 10,
                   productStatus := "active", isAvailable := true }]
    inventories := [{ productId := 2, quantity := 5 }]
    orders := [ordC5a, ordC5b]
    activities := []
    nextOrderId := 3
    now := 30 }

/-- Witness for C5, instantiated for the `User` role at the concrete
store: the listing is sorted and membership is exactly ownership plus
non-cancelled status. -/
theorem getAllOrders_spec_witness :
    List.Sorted createdAtDesc (getAllOrders dbC5 "User" 1)
  ∧ (ordC5b ∈ getAllOrders dbC5 "User" 1 ↔
      (ordC5b ∈ dbC5.orders ∧ ordC5b.AccountId = 1 ∧
        ordC5b.orderStatus ≠ OrderStatus.cancelled)) :=
  ⟨(getAllOrders_spec dbC5 "User" 1).1,
    (getAllOrders_spec dbC5 "User" 1).2.1 rfl ordC5b⟩

/-! ### C6: trackOrderStatus ownership filter -/

/-- C6. For an order with id `id` (the only order carrying that id),
`trackOrderStatus id accountId` returns exactly the order's status when
`accountId` is the owning account, and fails with the conflated
not-found/unauthorized error for every other account; the operation takes
no role argument, so the rule is ownership-only. -/
theorem trackOrderStatus_spec
    (db : DB) (id : Nat) (o : Order)
    (ho : o ∈ db.orders)
    (hid : o.id = id)
    (huniq : ∀ o' ∈ db.orders, o'.id = id → o' = o) :
    trackOrderStatus db id o.AccountId = Except.ok o.orderStatus
  ∧ ∀ accountId, accountId ≠ o.AccountId →
      trackOrderStatus db id accountId =
        Except.error "Order not found or unauthorized access" := by
  constructor
  · cases hf : db.orders.find? (fun x => x.id == id && x.AccountId == o.AccountId) with
    | none =>
      exfalso
      have hnone := List.find?_eq_none.mp hf o ho
      simp [hid] at hnone
    | some o' =>
      have hmem := List.mem_of_find?_eq_some hf
      have hpred := List.find?_some hf
      simp only [Bool.and_eq_true, beq_iff_eq] at hpred
      have heq : o' = o := huniq o' hmem hpred.1
      subst heq
      simp [trackOrderStatus, hf]
  · intro accountId hne
    have hf : db.orders.find? (fun x => x.id == id && x.AccountId == accountId) = none := by
      apply List.find?_eq_none.mpr
      intro x hx
      simp only [Bool.and_eq_true, beq_iff_eq, not_and]
      intro hxid
      have heq : x = o := huniq x hx hxid
      subst heq
      exact fun hacc => hne hacc.symm
    simp [trackOrderStatus, hf]

/-- The order used by the C6 witness. -/
def ordC6 : Order :=
  { id := 1, AccountId := 1, productId := 2, quantity := 1,
    totalAmount := 10, orderStatus := OrderStatus.shipped,
    shippingAddress := "1 Main St", createdAt := 10 }

/-- Concrete store for the C6 witness. -/
def dbC6 : DB :=
  { accounts := [{ id := 1, email := "user@example.com" }]
    products := [{ id := 2, name := "Widget", price := 10,
                   productStatus := "active", isAvailable := true }]
    inventories := [{ productId := 2, quantity := 5 }]
    orders := [ordC6]
    activities := []
    nextOrderId := 2
    now := 30 }

/-- Witness for C6: account 1 reads the status, account 2 is refused. -/
theorem trackOrderStatus_spec_witness :
    trackOrderStatus dbC6 1 1 = Except.ok OrderStatus.shipped
  ∧ trackOrderStatus dbC6 1 2 =
      Except.error "Order not found or unauthorized access" :=
  ⟨(trackOrderStatus_spec dbC6 1 ordC6 (by simp [dbC6]) rfl
      (by intro o' h1 h2; simpa [dbC6] using h1)).1,
    (trackOrderStatus_spec dbC6 1 ordC6 (by simp [dbC6]) rfl
      (by intro o' h1 h2; simpa [dbC6] using h1)).2 2 (by decide)⟩

/-! ### C7: totalAmount across the lifecycle operations -/

/-- The pending order used by the C7 counterexample and witness. -/
def ordC7 : Order :=
  { id := 1, AccountId := 1, productId := 2, quantity := 3,
    totalAmount := 30, orderStatus := OrderStatus.pending,
    shippingAddress := "1 Main St", createdAt := 10 }

/-- Concrete store for C7. -/
def dbC7 : DB :=
  { accounts := [{ id := 1, email := "user@example.com" }]
    products := [{ id := 2, name := "Widget", price := 10,
                   productStatus := "active", isAvailable := true }]
    inventories := [{ productId := 2, quantity := 5 }]
    orders := [ordC7]
    activities := []
    nextOrderId := 2
    now := 20 }

/-- An update bag that carries a `totalAmount` field. -/
def patchC7 : UpdateOrderParams :=
  { totalAmount := some 999 }

/-- Counterexample to C7 as stated: `updateOrder` merges the caller's
fields with no validation, so a params bag carrying `totalAmount` rewrites
the amount fixed at creation — here from 30 to 999. -/
theorem updateOrder_overwrites_totalAmount :
    (getOrderById dbC7 1).map (fun o => o.totalAmount) = some 30
  ∧ ((updateOrder dbC7 1 patchC7 1 "127.0.0.1" "test-agent").2.1.orders.find?
      (fun x => x.id == 1)).map (fun x => x.totalAmount) = some 999 :=
  ⟨rfl, rfl⟩

/-- C7 amended. `cancelOrder`, `processOrder`, `shipOrder` and
`deliverOrder` never alter an order's `totalAmount`, and `updateOrder`
preserves it whenever the params bag carries no `totalAmount` field; only
an `updateOrder` call whose params contain `totalAmount` can change it. -/
theorem totalAmount_preservation
    (db : DB) (id accountId : Nat) (ip ua : String) (o : Order) (params : UpdateOrderParams)
    (h : getOrderById db id = some o)
    (hparams : params.totalAmount = none) :
    ((updateOrder db id params accountId ip ua).2.1.orders.find?
        (fun x => x.id == id)).map (fun x => x.totalAmount) = some o.totalAmount
  ∧ ((cancelOrder db id accountId ip ua).2.1.orders.find?
        (fun x => x.id == id)).map (fun x => x.totalAmount) = some o.totalAmount
  ∧ ((processOrder db id accountId ip ua).2.1.orders.find?
        (fun x => x.id == id)).map (fun x => x.totalAmount) = some o.totalAmount
  ∧ ((shipOrder db id).2.1.orders.find?
        (fun x => x.id == id)).map (fun x => x.totalAmount) = some o.totalAmount
  ∧ ((deliverOrder db id).2.1.orders.find?
        (fun x => x.id == id)).map (fun x => x.totalAmount) = some o.totalAmount := by
  have h' : db.orders.find? (fun x => x.id == id) = some o := h
  refine ⟨?_, ?_, ?_, ?_, ?_⟩
  · by_cases hc : (o.orderStatus == OrderStatus.cancelled) = true
    · simp [updateOrder, h', hc]
    · have hres : (updateOrder db id params accountId ip ua).2.1.orders
          = (saveOrderRow db (objectAssign o params)).orders := by
        simp [updateOrder, h', hc, logActivityRow]
      rw [hres, find?_saveOrderRow db id o (objectAssign o params) h' rfl]
      simp [objectAssign, hparams]
  · by_cases hc : (o.orderStatus == OrderStatus.cancelled) = true
    · simp [cancelOrder, h, hc]
      exact ⟨o, h', rfl⟩
    · by_cases hsd : (o.orderStatus == OrderStatus.shipped ||
          o.orderStatus == OrderStatus.delivered) = true
      · simp [cancelOrder, h, hc, hsd]
        exact ⟨o, h', rfl⟩
      · cases hpf : db.products.find? (fun p => p.id == o.productId) with
        | none =>
          have hres : (cancelOrder db id accountId ip ua).2.1.orders
              = (saveOrderRow db { o with orderStatus := OrderStatus.cancelled }).orders := by
            simp [cancelOrder, h, hc, hsd, hpf, logActivityRow, saveProductRow, saveOrderRow]
          rw [hres,
            find?_saveOrderRow db id o { o with orderStatus := OrderStatus.cancelled } h' rfl]
          simp
        | some prod =>
          have hres : (cancelOrder db id accountId ip ua).2.1.orders
              = (saveOrderRow db { o with orderStatus := OrderStatus.cancelled }).orders := by
            simp [cancelOrder, h, hc, hsd, hpf, logActivityRow, saveProductRow, saveOrderRow]
          rw [hres,
            find?_saveOrderRow db id o { o with orderStatus := OrderStatus.cancelled } h' rfl]
          simp
  · by_cases hc : (o.orderStatus == OrderStatus.cancelled) = true
    · simp [processOrder, h, hc]
      exact ⟨o, h', rfl⟩
    · have hres : (processOrder db id accountId ip ua).2.1.orders
          = (saveOrderRow db { o with orderStatus := OrderStatus.processing }).orders := by
        simp [processOrder, h, hc, logActivityRow]
      rw [hres,
        find?_saveOrderRow db id o { o with orderStatus := OrderStatus.processing } h' rfl]
      simp
  · by_cases hc : (o.orderStatus == OrderStatus.cancelled) = true
    · simp [shipOrder, h, hc]
      exact ⟨o, h', rfl⟩
    · have hres : (shipOrder db id).2.1.orders
          = (saveOrderRow db { o with orderStatus := OrderStatus.shipped }).orders := by
        simp [shipOrder, h, hc]
      rw [hres,
        find?_saveOrderRow db id o { o with orderStatus := OrderStatus.shipped } h' rfl]
      simp
  · by_cases hc : (o.orderStatus == OrderStatus.cancelled) = true
    · simp [deliverOrder, h, hc]
      exact ⟨o, h', rfl⟩
    · have hres : (deliverOrder db id).2.1.orders
          = (saveOrderRow db { o with orderStatus := OrderStatus.delivered }).orders := by
        simp [deliverOrder, h, hc]
      rw [hres,
        find?_saveOrderRow db id o { o with orderStatus := OrderStatus.delivered } h' rfl]
      simp

/-- An update bag with a status change but no `totalAmount` field. -/
def patchC7none : UpdateOrderParams :=
  { orderStatus := some OrderStatus.shipped }

/-- Witness for the amended C7 at the concrete pending order. -/
theorem totalAmount_preservation_witness :
    ((updateOrder dbC7 1 patchC7none 1 "127.0.0.1" "test-agent").2.1.orders.find?
        (fun x => x.id == 1)).map (fun x => x.totalAmount) = some 30
  ∧ ((cancelOrder dbC7 1 1 "127.0.0.1" "test-agent").2.1.orders.find?
        (fun x => x.id == 1)).map (fun x => x.totalAmount) = some 30
  ∧ ((processOrder dbC7 1 1 "127.0.0.1" "test-agent").2.1.orders.find?
        (fun x => x.id == 1)).map (fun x => x.totalAmount) = some 30
  ∧ ((shipOrder dbC7 1).2.1.orders.find?
        (fun x => x.id == 1)).map (fun x => x.totalAmount) = some 30
  ∧ ((deliverOrder dbC7 1).2.1.orders.find?
        (fun x => x.id == 1)).map (fun x => x.totalAmount) = some 30 :=
  totalAmount_preservation dbC7 1 1 "127.0.0.1" "test-agent" ordC7 patchC7none rfl rfl

/-! ### C8: getOrderActivities -/

/-- The order used by C8. -/
def ordC8 : Order :=
  { id := 1, AccountId := 1, productId := 2, quantity := 1,
    totalAmount := 10, orderStatus := OrderStatus.pending,
    shippingAddress := "1 Main St", createdAt := 10 }

/-- Concrete store for C8. -/
def dbC8 : DB :=
  { accounts := [{ id := 1, email := "user@example.com" }]
    products := [{ id := 2, name := "Widget", price := 10,
                   productStatus := "active", isAvailable := true }]
    inventories := [{ productId := 2, quantity := 5 }]
    orders := [ordC8]
    activities := []
    nextOrderId := 2
    now := 20 }

/-- C8 evaluated at the failing input (code bug): for a missing order the
`OrderNotFound` half holds, but for an existing order the call never
reaches the Activity Logger — the unbound identifier
`orderActivityLogger` makes the delegation raise a ReferenceError instead
of returning the logger's query results. -/
theorem getOrderActivities_reference_error :
    getOrderActivities dbC8 99 1 [] = Except.error "Order not found"
  ∧ getOrderActivities dbC8 1 1 [] =
      Except.error "ReferenceError: orderActivityLogger is not defined" :=
  ⟨rfl, rfl⟩

end Blanco
